import Mathlib

/-!
Verification of the request/response envelope of a Valhalla HTTP client
(package `client`): the shared `buildBaseRequest` helper, the three endpoint
callers `Route`, `Isochrone`, `Elevation`, the structured `ErrorResponse`,
and the JSON marshalling behaviour of the `RouteLocation` data type.

External effects (URI parsing, JSON (un)marshalling of abstract payloads,
the HTTP transport) are modelled as oracle functions collected in `HttpEnv`
and `Codec`; the Go control flow is translated statement by statement.
-/

namespace Valhalla

/-- `ErrorResponse` from the valhalla server (errors.go):
fields `error_code`, `error`, `status_code`, `status`. -/
structure ErrorResponse where
  ErrorCode : String
  ErrorMessage : String
  StatusCode : Int
  Status : String
deriving DecidableEq, Repr

/-- The zero value `ErrorResponse{}` that `Route`/`Isochrone`/`Elevation`
allocate before calling `json.Unmarshal`. -/
def ErrorResponse.zero : ErrorResponse :=
  { ErrorCode := "", ErrorMessage := "", StatusCode := 0, Status := "" }

/-- `func (err *ErrorResponse) Error() string` (errors.go). -/
def ErrorResponse.Error (err : ErrorResponse) : String :=
  err.Status ++ ": " ++ err.ErrorMessage

/-- Go `error` values produced by this package: either a bare
`*ErrorResponse`, a leaf error coming from one of the effectful steps
(tagged by its origin), or a `fmt.Errorf("...: %w", inner)` wrapper. -/
inductive GoErr where
  /-- the `*ErrorResponse` returned for a non-200 status -/
  | errorResponse (e : ErrorResponse)
  /-- error from `req.URI().Parse` -/
  | uriErr (e : String)
  /-- error returned by the caller-supplied `BeforeRequestFn` -/
  | hookErr (e : String)
  /-- error from `json.Marshal` of the request body -/
  | marshalErr (e : String)
  /-- error from `client.httpClient.Do` (transport failure) -/
  | transportErr (e : String)
  /-- error from `json.Unmarshal` of a 200 response body -/
  | decodeErr (e : String)
  /-- `fmt.Errorf(msg + ": %w", inner)` -/
  | wrap (msg : String) (inner : GoErr)
deriving DecidableEq, Repr

/-- `errors.As(err, &target)` for `target : **ErrorResponse`:
does the error chain contain a structured service error? -/
def GoErr.isServiceErr : GoErr → Bool
  | .errorResponse _ => true
  | .wrap _ inner => inner.isServiceErr
  | _ => false

/-- Does the error chain contain a response-body decode error? -/
def GoErr.isDecodeErr : GoErr → Bool
  | .decodeErr _ => true
  | .wrap _ inner => inner.isDecodeErr
  | _ => false

/-- Does the error chain contain a transport (`httpClient.Do`) error? -/
def GoErr.isTransportErr : GoErr → Bool
  | .transportErr _ => true
  | .wrap _ inner => inner.isTransportErr
  | _ => false

/-- The observable part of a `fasthttp.Request`: method, parsed URI,
headers (a set-semantics association list) and optional body bytes
(bodies are modelled as `String`, matching Go's `string(b)` coercion). -/
structure Request where
  method : String
  uri : Option String
  headers : List (String × String)
  body : Option String
deriving DecidableEq, Repr

/-- `fasthttp.AcquireRequest()`: a zeroed request.  fasthttp reports the
method of a request whose method was never set as `"GET"`, so the zero
request carries method `"GET"`. -/
def Request.acquire : Request :=
  { method := "GET", uri := none, headers := [], body := none }

/-- `req.Header.Set(k, v)`: replace any existing value of header `k`. -/
def Request.setHeader (req : Request) (k v : String) : Request :=
  { req with headers := req.headers.filter (fun p => p.1 ≠ k) ++ [(k, v)] }

/-- `req.Header.SetContentType(v)`. -/
def Request.setContentType (req : Request) (v : String) : Request :=
  req.setHeader "Content-Type" v

/-- Read header `k` of the request. -/
def Request.getHeader (req : Request) (k : String) : Option String :=
  (req.headers.find? (fun p => p.1 = k)).map (·.2)

/-- `req.SetBody(b)`. -/
def Request.setBody (req : Request) (b : String) : Request :=
  { req with body := some b }

/-- The observable part of a `fasthttp.Response`: status code and body. -/
structure Response where
  statusCode : Int
  body : String
deriving DecidableEq, Repr

/-- The environment of effectful operations shared by every call:
URI parsing, the HTTP transport (`httpClient.Do`), and
`json.Unmarshal` of a response body into a zeroed `ErrorResponse`
(returning the — possibly partially — filled struct and the unmarshal
error, if any). -/
structure HttpEnv where
  parseURI : String → Except String String
  send : Request → Except String Response
  unmarshalErrResp : String → ErrorResponse × Option String

/-- The serialization codec of one endpoint: `json.Marshal` for its input
type `β` and `json.Unmarshal` for its output type `γ`. -/
structure Codec (β γ : Type) where
  marshal : β → Except String String
  decodeOutput : String → Except String γ

/-- `ClientConfig` (client_config.go):  custom headers, endpoint.
(`TLSConfig` only parameterizes the transport and is absorbed by
`HttpEnv.send`.) -/
structure ClientConfig where
  CustomHeaders : List (String × String)
  Endpoint : String

/-- `Client`: configuration plus the optional `BeforeRequestFn` hook.
The hook receives the mutable request and may rewrite any part of it or
fail.  The `httpClient` field is modelled by `HttpEnv.send`. -/
structure Client where
  config : ClientConfig
  beforeRequestFn : Option (Request → Except String Request)

/-- The `if client.beforeRequestFn != nil { ... }` block of
`buildBaseRequest`: run the hook on the mutable request if one is set;
a hook failure is wrapped as
`fmt.Errorf("error while calling BeforeRequest custom fn: %w", err)`. -/
def hookStep (client : Client) (req : Request) : Except GoErr Request :=
  match client.beforeRequestFn with
  | none => .ok req
  | some fn =>
    match fn req with
    | .error e => .error (.wrap "error while calling BeforeRequest custom fn" (.hookErr e))
    | .ok r => .ok r

/-- The `if body != nil { ... }` block of `buildBaseRequest`:
marshal a non-nil body and attach it with `req.SetBody`;
a nil body leaves the request untouched. -/
def bodyStep (marshal : β → Except String String) (body : Option β)
    (req : Request) : Except GoErr Request :=
  match body with
  | none => .ok req
  | some b =>
    match marshal b with
    | .error e => .error (.wrap "error while encoding body to json" (.marshalErr e))
    | .ok bodyBytes => .ok (req.setBody bodyBytes)

/-- `buildBaseRequest` (client.go): parse the URI from
`Endpoint + "/" + path`, run the hook if present, marshal and attach the
body if non-nil, set content-type `application/json`.  The `method`
argument is accepted but — exactly as in the source — never applied to
the request. -/
def Client.buildBaseRequest (env : HttpEnv) (marshal : β → Except String String)
    (client : Client) (method path : String) (body : Option β) :
    Except GoErr Request :=
  match env.parseURI (client.config.Endpoint ++ "/" ++ path) with
  | .error e => .error (.wrap "unable to build request uri" (.uriErr e))
  | .ok u =>
    match hookStep client { Request.acquire with uri := some u } with
    | .error e => .error e
    | .ok req1 =>
      match bodyStep marshal body req1 with
      | .error e => .error e
      | .ok req2 => .ok (req2.setContentType "application/json")

/-- The `if resp.StatusCode() != fasthttp.StatusOK { ... }` block shared
verbatim by `Route`, `Isochrone` and `Elevation`: allocate a zero
`ErrorResponse`, `json.Unmarshal` the body into it, and on unmarshal
failure overwrite `StatusCode` with the raw HTTP status and
`ErrorMessage` with the raw body text. -/
def non200Error (env : HttpEnv) (resp : Response) : ErrorResponse :=
  match env.unmarshalErrResp resp.body with
  | (errRes, none) => errRes
  | (errRes, some _) =>
    { errRes with StatusCode := resp.statusCode, ErrorMessage := resp.body }

/-- `Route` (route.go): build the request for path `"/route"`, send it,
map a non-200 status to a bare `*ErrorResponse`, decode a 200 body into
the output type.  Returned as Go's `(*RouteOutput, error)` pair. -/
def Client.Route (env : HttpEnv) (codec : Codec β γ) (client : Client)
    (input : β) : Option γ × Option GoErr :=
  match client.buildBaseRequest env codec.marshal "POST" "/route" (some input) with
  | .error err => (none, some (.wrap "failed to build request for route" err))
  | .ok req =>
    match env.send req with
    | .error e => (none, some (.wrap "error while calling http route service" (.transportErr e)))
    | .ok resp =>
      if resp.statusCode ≠ 200 then
        (none, some (.errorResponse (non200Error env resp)))
      else
        match codec.decodeOutput resp.body with
        | .error e =>
          (none, some (.wrap "error while decoding http route json response data" (.decodeErr e)))
        | .ok output => (some output, none)

/-- `Isochrone` (isochrone.go): identical envelope, also posting to path
`"/route"`; even its build/transport error messages still say "route"
(the decode message says "isochrone"). -/
def Client.Isochrone (env : HttpEnv) (codec : Codec β γ) (client : Client)
    (input : β) : Option γ × Option GoErr :=
  match client.buildBaseRequest env codec.marshal "POST" "/route" (some input) with
  | .error err => (none, some (.wrap "failed to build request for route" err))
  | .ok req =>
    match env.send req with
    | .error e => (none, some (.wrap "error while calling http route service" (.transportErr e)))
    | .ok resp =>
      if resp.statusCode ≠ 200 then
        (none, some (.errorResponse (non200Error env resp)))
      else
        match codec.decodeOutput resp.body with
        | .error e =>
          (none, some (.wrap "error while decoding http isochrone json response data" (.decodeErr e)))
        | .ok output => (some output, none)

/-- `Elevation` (elevation.go): identical envelope with path `"/height"`. -/
def Client.Elevation (env : HttpEnv) (codec : Codec β γ) (client : Client)
    (input : β) : Option γ × Option GoErr :=
  match client.buildBaseRequest env codec.marshal "POST" "/height" (some input) with
  | .error err => (none, some (.wrap "failed to build request for elevation" err))
  | .ok req =>
    match env.send req with
    | .error e => (none, some (.wrap "error while calling http elevation service" (.transportErr e)))
    | .ok resp =>
      if resp.statusCode ≠ 200 then
        (none, some (.errorResponse (non200Error env resp)))
      else
        match codec.decodeOutput resp.body with
        | .error e =>
          (none, some (.wrap "error while decoding http elevation json response data" (.decodeErr e)))
        | .ok output => (some output, none)

/-- The request/response envelope of spec §4.1, written once and
parameterized by the only data in which the three endpoint callers
differ: the URL path, the three wrap-message strings, and the codec.
Each endpoint caller should be exactly this function at its fixed path. -/
def envelopeExecute (env : HttpEnv) (codec : Codec β γ)
    (msgBuild msgSend msgDecode path : String) (client : Client)
    (body : Option β) : Option γ × Option GoErr :=
  match client.buildBaseRequest env codec.marshal "POST" path body with
  | .error err => (none, some (.wrap msgBuild err))
  | .ok req =>
    match env.send req with
    | .error e => (none, some (.wrap msgSend (.transportErr e)))
    | .ok resp =>
      if resp.statusCode ≠ 200 then
        (none, some (.errorResponse (non200Error env resp)))
      else
        match codec.decodeOutput resp.body with
        | .error e => (none, some (.wrap msgDecode (.decodeErr e)))
        | .ok output => (some output, none)

/-! ### JSON marshalling of `RouteLocation` (route.go)

Go `float64`/`float32` values are modelled as the rationals they denote
(`json.Marshal` rejects NaN and infinities, so every marshallable float
is a rational). -/

/-- A JSON value as produced by goccy/go-json (arrays are not needed for
the fields modelled here). -/
inductive Jval where
  | null
  | bool (b : Bool)
  | num (q : ℚ)
  | str (s : String)
  | obj (fields : List (String × Jval))

/-- A pointer field without `omitempty` (tags `json:"lon"`, `json:"lat"`):
always emitted, `null` when the pointer is nil. -/
def ptrField (k : String) (v : Option Jval) : List (String × Jval) :=
  [(k, v.getD .null)]

/-- A pointer field with `omitempty`: emitted only when the pointer is
non-nil. -/
def optField (k : String) (v : Option Jval) : List (String × Jval) :=
  match v with
  | none => []
  | some j => [(k, j)]

/-- A plain (non-pointer) `int` field with `omitempty`: goccy/go-json,
like encoding/json, omits the field exactly when the value is the zero
value `0`. -/
def optIntField (k : String) (n : Int) : List (String × Jval) :=
  if n = 0 then [] else [(k, .num (n : ℚ))]

/-- First value bound to key `k` in a marshalled JSON object. -/
def findField (k : String) : List (String × Jval) → Option Jval
  | [] => none
  | (k1, v) :: rest => if k = k1 then some v else findField k rest

/-- `RouteInputLocationSearchFilter` (route.go). -/
structure RouteInputLocationSearchFilter where
  ExcludeTunnel : Option Bool
  ExcludeBridge : Option Bool
  ExcludeRamp : Option Bool
  ExcludeClosures : Option Bool
  MinRoadClass : Option String
  MaxRoadClass : Option String

/-- Marshalled fields of `RouteInputLocationSearchFilter`, in declaration
order with the struct's json tags (all `omitempty` pointers). -/
def RouteInputLocationSearchFilter.marshalFields
    (f : RouteInputLocationSearchFilter) : List (String × Jval) :=
  List.flatten
    [ optField "exclude_tunnel" (f.ExcludeTunnel.map Jval.bool),
      optField "exclude_bridge" (f.ExcludeBridge.map Jval.bool),
      optField "exclude_ramp" (f.ExcludeRamp.map Jval.bool),
      optField "exclude_closures" (f.ExcludeClosures.map Jval.bool),
      optField "min_road_class" (f.MinRoadClass.map Jval.str),
      optField "max_road_class" (f.MaxRoadClass.map Jval.str) ]

/-- `RouteLocation` (route.go).  Pointer fields are `Option`s; the two
plain `int` fields (`MinimumReachability`, `Radius`) are `Int`. -/
structure RouteLocation where
  Lon : Option ℚ
  Lat : Option ℚ
  «Type» : Option String
  Heading : Option ℚ
  HeadingTolerance : Option ℚ
  Street : Option String
  WayID : Option String
  MinimumReachability : Int
  Radius : Int
  RankCandidates : Option Bool
  PreferredSide : Option String
  DisplayLat : Option ℚ
  DisplayLon : Option ℚ
  SearchCutoff : Option String
  NodeSnapTolerance : Option ℚ
  StreetSideTolerance : Option ℚ
  StreetSideMaxDistance : Option ℚ
  SearchFilter : Option RouteInputLocationSearchFilter
  Name : Option String
  City : Option String
  State : Option String
  PostalCode : Option String
  Country : Option String
  Phone : Option String
  URL : Option String
  SideOfStreet : Option String
  DateTime : Option String
  OriginalIndex : Option Int

/-- Marshalled fields 1–10 of `RouteLocation` (`lon` … `rank_candidates`).
The marshalling of the 28-field struct is split into three chunks purely
to keep each Lean definition small; `RouteLocation.marshalFields` below
concatenates them in declaration order. -/
def RouteLocation.marshalFieldsA (loc : RouteLocation) : List (String × Jval) :=
  List.flatten
    [ ptrField "lon" (loc.Lon.map Jval.num),
      ptrField "lat" (loc.Lat.map Jval.num),
      optField "type" (loc.«Type».map Jval.str),
      optField "heading" (loc.Heading.map Jval.num),
      optField "heading_tolerance" (loc.HeadingTolerance.map Jval.num),
      optField "street" (loc.Street.map Jval.str),
      optField "way_id" (loc.WayID.map Jval.str),
      optIntField "minimum_reachability" loc.MinimumReachability,
      optIntField "radius" loc.Radius,
      optField "rank_candidates" (loc.RankCandidates.map Jval.bool) ]

/-- Marshalled fields 11–19 of `RouteLocation`
(`preferred_side` … `name`). -/
def RouteLocation.marshalFieldsB (loc : RouteLocation) : List (String × Jval) :=
  List.flatten
    [ optField "preferred_side" (loc.PreferredSide.map Jval.str),
      optField "display_lat" (loc.DisplayLat.map Jval.num),
      optField "display_lon" (loc.DisplayLon.map Jval.num),
      optField "search_cutoff" (loc.SearchCutoff.map Jval.str),
      optField "node_snap_tolerance" (loc.NodeSnapTolerance.map Jval.num),
      optField "street_side_tolerance" (loc.StreetSideTolerance.map Jval.num),
      optField "street_side_max_distance" (loc.StreetSideMaxDistance.map Jval.num),
      optField "search_filter" (loc.SearchFilter.map (fun f => Jval.obj f.marshalFields)),
      optField "name" (loc.Name.map Jval.str) ]

/-- Marshalled fields 20–28 of `RouteLocation`
(`city` … `original_index`). -/
def RouteLocation.marshalFieldsC (loc : RouteLocation) : List (String × Jval) :=
  List.flatten
    [ optField "city" (loc.City.map Jval.str),
      optField "state" (loc.State.map Jval.str),
      optField "postal_code" (loc.PostalCode.map Jval.str),
      optField "country" (loc.Country.map Jval.str),
      optField "phone" (loc.Phone.map Jval.str),
      optField "url" (loc.URL.map Jval.str),
      optField "side_of_street" (loc.SideOfStreet.map Jval.str),
      optField "date_time" (loc.DateTime.map Jval.str),
      optField "original_index" (loc.OriginalIndex.map (fun n => Jval.num (n : ℚ))) ]

/-- Marshalled fields of `RouteLocation`, in declaration order with the
struct's json tags: `lon`/`lat` have no `omitempty`, every other pointer
field has `omitempty`, and `minimum_reachability`/`radius` are plain
`int`s with `omitempty`. -/
def RouteLocation.marshalFields (loc : RouteLocation) : List (String × Jval) :=
  loc.marshalFieldsA ++ loc.marshalFieldsB ++ loc.marshalFieldsC

/-- A `RouteLocation` with only coordinates set: every pointer field nil
and the plain `int` fields at their zero value — in particular `Radius`
is (explicitly) `0`. -/
def radiusZeroLocation : RouteLocation :=
  { Lon := some (-4.486076 : ℚ), Lat := some (48.390394 : ℚ),
    «Type» := none, Heading := none, HeadingTolerance := none,
    Street := none, WayID := none,
    MinimumReachability := 0, Radius := 0,
    RankCandidates := none, PreferredSide := none,
    DisplayLat := none, DisplayLon := none, SearchCutoff := none,
    NodeSnapTolerance := none, StreetSideTolerance := none,
    StreetSideMaxDistance := none, SearchFilter := none,
    Name := none, City := none, State := none, PostalCode := none,
    Country := none, Phone := none, URL := none, SideOfStreet := none,
    DateTime := none, OriginalIndex := none }

/-! ### Lemmas about `findField` over marshalled field lists -/

theorem findField_ptrField_ne (k k1 : String) (v : Option Jval)
    (rest : List (String × Jval)) (h : k ≠ k1) :
    findField k (ptrField k1 v ++ rest) = findField k rest := by
  simp [ptrField, findField, h]

theorem findField_optField_ne (k k1 : String) (v : Option Jval)
    (rest : List (String × Jval)) (h : k ≠ k1) :
    findField k (optField k1 v ++ rest) = findField k rest := by
  cases v <;> simp [optField, findField, h]

theorem findField_optField_ne_nil (k k1 : String) (v : Option Jval)
    (h : k ≠ k1) : findField k (optField k1 v) = none := by
  cases v <;> simp [optField, findField, h]

theorem findField_optIntField_ne (k k1 : String) (n : Int)
    (rest : List (String × Jval)) (h : k ≠ k1) :
    findField k (optIntField k1 n ++ rest) = findField k rest := by
  by_cases h0 : n = 0 <;> simp [optIntField, findField, h, h0]

theorem findField_optIntField_self (k : String) (n : Int)
    (rest : List (String × Jval)) :
    findField k (optIntField k n ++ rest) =
      if n = 0 then findField k rest else some (Jval.num (n : ℚ)) := by
  by_cases h0 : n = 0 <;> simp [optIntField, findField, h0]

/-- C4 (amended): in the marshalled JSON of a `RouteLocation` the key
`radius` is present if and only if the `Radius` field is nonzero.  An
unset radius (Go zero value `0`) serializes without the key — but so
does a radius explicitly set to `0`, because the field is a plain `int`
with `omitempty` and Go marshallers omit the zero value; only a nonzero
radius serializes with the key present. -/
theorem radius_serialized_iff_nonzero (loc : RouteLocation) :
    findField "radius" loc.marshalFields =
      if loc.Radius = 0 then none else some (Jval.num (loc.Radius : ℚ)) := by
  unfold RouteLocation.marshalFields RouteLocation.marshalFieldsA
    RouteLocation.marshalFieldsB RouteLocation.marshalFieldsC
  simp only [List.flatten, List.append_assoc, List.append_nil]
  rw [findField_ptrField_ne _ _ _ _ (by decide),
      findField_ptrField_ne _ _ _ _ (by decide),
      findField_optField_ne _ _ _ _ (by decide),
      findField_optField_ne _ _ _ _ (by decide),
      findField_optField_ne _ _ _ _ (by decide),
      findField_optField_ne _ _ _ _ (by decide),
      findField_optField_ne _ _ _ _ (by decide),
      findField_optIntField_ne _ _ _ _ (by decide),
      findField_optIntField_self]
  by_cases h0 : loc.Radius = 0
  · simp only [if_pos h0]
    rw [findField_optField_ne _ _ _ _ (by decide),
        findField_optField_ne _ _ _ _ (by decide),
        findField_optField_ne _ _ _ _ (by decide),
        findField_optField_ne _ _ _ _ (by decide),
        findField_optField_ne _ _ _ _ (by decide),
        findField_optField_ne _ _ _ _ (by decide),
        findField_optField_ne _ _ _ _ (by decide),
        findField_optField_ne _ _ _ _ (by decide),
        findField_optField_ne _ _ _ _ (by decide),
        findField_optField_ne _ _ _ _ (by decide),
        findField_optField_ne _ _ _ _ (by decide),
        findField_optField_ne _ _ _ _ (by decide),
        findField_optField_ne _ _ _ _ (by decide),
        findField_optField_ne _ _ _ _ (by decide),
        findField_optField_ne _ _ _ _ (by decide),
        findField_optField_ne _ _ _ _ (by decide),
        findField_optField_ne _ _ _ _ (by decide),
        findField_optField_ne _ _ _ _ (by decide),
        findField_optField_ne_nil _ _ _ (by decide)]
  · simp only [if_neg h0]

/-! ### Concrete fixtures used by witnesses -/

/-- A response used to exercise the non-200 branch: status 502 with a
plain-text (non-JSON) body. -/
def resp502 : Response := { statusCode := 502, body := "Bad Gateway" }

/-- An environment whose effects all succeed: URI parsing echoes its
input, the transport answers 200 with body `"{}"`, and unmarshalling a
body into an `ErrorResponse` fails (leaving the zero struct untouched). -/
def okEnv : HttpEnv :=
  { parseURI := fun s => .ok s
    send := fun _ => .ok { statusCode := 200, body := "{}" }
    unmarshalErrResp := fun _ => (ErrorResponse.zero, some "invalid character") }

/-- `okEnv` with a transport that answers 502 `Bad Gateway`. -/
def env502 : HttpEnv := { okEnv with send := fun _ => .ok resp502 }

/-- `okEnv` with a transport that fails (connection refused). -/
def envDown : HttpEnv := { okEnv with send := fun _ => .error "connection refused" }

/-- A codec whose marshaller always produces `"{}"` and whose output
decoder always succeeds. -/
def unitCodec : Codec Unit Unit :=
  { marshal := fun _ => .ok "{}"
    decodeOutput := fun _ => .ok () }

/-- A codec whose marshaller fails. -/
def badBodyCodec : Codec Unit Unit :=
  { marshal := fun _ => .error "unsupported type"
    decodeOutput := fun _ => .ok () }

/-- A client with no hook, no custom headers. -/
def plainClient : Client :=
  { config := { CustomHeaders := [], Endpoint := "http://valhalla.test" }
    beforeRequestFn := none }

/-- A client whose `BeforeRequest` hook always fails. -/
def hookFailClient : Client :=
  { plainClient with beforeRequestFn := some (fun _ => .error "boom") }

/-- The request `buildBaseRequest` produces in `okEnv` for `plainClient`
at path `/route` with the `unitCodec` body. -/
def okRouteReq : Request :=
  { method := "GET", uri := some "http://valhalla.test//route",
    headers := [("Content-Type", "application/json")], body := some "{}" }

/-! ### The envelope returns exactly one of response and error -/

/-- Every exit path of the envelope yields either `(some out, none)` or
`(none, some err)` — never both components, never neither. -/
theorem envelopeExecute_oneOf (env : HttpEnv) (codec : Codec β γ)
    (msgBuild msgSend msgDecode path : String) (client : Client)
    (body : Option β) :
    (∃ out, envelopeExecute env codec msgBuild msgSend msgDecode path client body
        = (some out, none)) ∨
    (∃ err, envelopeExecute env codec msgBuild msgSend msgDecode path client body
        = (none, some err)) := by
  unfold envelopeExecute
  cases h1 : client.buildBaseRequest env codec.marshal "POST" path body with
  | error e => exact .inr ⟨_, rfl⟩
  | ok req =>
    dsimp only
    cases h2 : env.send req with
    | error e => exact .inr ⟨_, rfl⟩
    | ok resp =>
      dsimp only
      by_cases h3 : resp.statusCode ≠ 200
      · rw [if_pos h3]
        exact .inr ⟨_, rfl⟩
      · rw [if_neg h3]
        cases h4 : codec.decodeOutput resp.body with
        | error e => exact .inr ⟨_, rfl⟩
        | ok out => exact .inl ⟨_, rfl⟩

/-- C1: for every call to `Route`, `Isochrone` or `Elevation`, exactly
one of {decoded typed response, non-nil error} is returned: each call
yields either `(some output, none)` or `(none, some error)`, never both
non-nil and never both nil. -/
theorem endpoints_return_exactly_one_of_output_error
    (env : HttpEnv) (codec : Codec β γ) (client : Client) (input : β) :
    ((∃ out, client.Route env codec input = (some out, none)) ∨
     (∃ err, client.Route env codec input = (none, some err))) ∧
    ((∃ out, client.Isochrone env codec input = (some out, none)) ∨
     (∃ err, client.Isochrone env codec input = (none, some err))) ∧
    ((∃ out, client.Elevation env codec input = (some out, none)) ∨
     (∃ err, client.Elevation env codec input = (none, some err))) :=
  ⟨envelopeExecute_oneOf env codec "failed to build request for route"
      "error while calling http route service"
      "error while decoding http route json response data" "/route" client (some input),
   envelopeExecute_oneOf env codec "failed to build request for route"
      "error while calling http route service"
      "error while decoding http isochrone json response data" "/route" client (some input),
   envelopeExecute_oneOf env codec "failed to build request for elevation"
      "error while calling http elevation service"
      "error while decoding http elevation json response data" "/height" client (some input)⟩

/-- C8: `Route` and `Isochrone` delegate to the envelope with the fixed
path `/route`, `Elevation` with the fixed path `/height`; each endpoint
caller is exactly the shared envelope at its fixed path (and wrap-message
strings) — no extra branching, retry or validation. -/
theorem endpoints_delegate_to_envelope
    (env : HttpEnv) (codec : Codec β γ) (client : Client) (input : β) :
    client.Route env codec input =
      envelopeExecute env codec "failed to build request for route"
        "error while calling http route service"
        "error while decoding http route json response data" "/route" client (some input) ∧
    client.Isochrone env codec input =
      envelopeExecute env codec "failed to build request for route"
        "error while calling http route service"
        "error while decoding http isochrone json response data" "/route" client (some input) ∧
    client.Elevation env codec input =
      envelopeExecute env codec "failed to build request for elevation"
        "error while calling http elevation service"
        "error while decoding http elevation json response data" "/height" client (some input) :=
  ⟨rfl, rfl, rfl⟩

/-- C2: for every call whose HTTP response status is not 200, the
returned error is the structured `ErrorResponse`: when the body
unmarshals as structured-error JSON the returned error equals the
decoded struct field for field; when unmarshalling fails, the returned
error's `StatusCode` is the raw HTTP status and its `ErrorMessage` is
the raw body text; and each endpoint returns exactly
`(nil, *ErrorResponse)` in that case. -/
theorem non200_maps_to_structured_error
    (env : HttpEnv) (resp : Response) (hst : resp.statusCode ≠ 200) :
    (∀ decoded, env.unmarshalErrResp resp.body = (decoded, none) →
       non200Error env resp = decoded) ∧
    (∀ filled msg, env.unmarshalErrResp resp.body = (filled, some msg) →
       (non200Error env resp).StatusCode = resp.statusCode ∧
       (non200Error env resp).ErrorMessage = resp.body) ∧
    (∀ (β γ : Type) (codec : Codec β γ) (client : Client) (input : β) (req : Request),
       client.buildBaseRequest env codec.marshal "POST" "/route" (some input) = .ok req →
       env.send req = .ok resp →
       client.Route env codec input =
         (none, some (.errorResponse (non200Error env resp)))) ∧
    (∀ (β γ : Type) (codec : Codec β γ) (client : Client) (input : β) (req : Request),
       client.buildBaseRequest env codec.marshal "POST" "/route" (some input) = .ok req →
       env.send req = .ok resp →
       client.Isochrone env codec input =
         (none, some (.errorResponse (non200Error env resp)))) ∧
    (∀ (β γ : Type) (codec : Codec β γ) (client : Client) (input : β) (req : Request),
       client.buildBaseRequest env codec.marshal "POST" "/height" (some input) = .ok req →
       env.send req = .ok resp →
       client.Elevation env codec input =
         (none, some (.errorResponse (non200Error env resp)))) := by
  refine ⟨?_, ?_, ?_, ?_, ?_⟩
  · intro decoded h
    unfold non200Error
    rw [h]
  · intro filled msg h
    unfold non200Error
    rw [h]
    exact ⟨rfl, rfl⟩
  · intro β γ codec client input req hb hs
    unfold Client.Route
    rw [hb]
    dsimp only
    rw [hs]
    dsimp only
    rw [if_pos hst]
  · intro β γ codec client input req hb hs
    unfold Client.Isochrone
    rw [hb]
    dsimp only
    rw [hs]
    dsimp only
    rw [if_pos hst]
  · intro β γ codec client input req hb hs
    unfold Client.Elevation
    rw [hb]
    dsimp only
    rw [hs]
    dsimp only
    rw [if_pos hst]

/-- Witness for C2: a concrete 502 response with non-JSON body
`"Bad Gateway"` makes `Route` return the synthesized structured error
with `StatusCode = 502` and `ErrorMessage = "Bad Gateway"`. -/
theorem non200_maps_to_structured_error_witness :
    plainClient.Route env502 unitCodec () =
      (none, some (.errorResponse
        { ErrorCode := "", ErrorMessage := "Bad Gateway",
          StatusCode := 502, Status := "" })) :=
  (non200_maps_to_structured_error env502 resp502 (by decide)).2.2.1
    Unit Unit unitCodec plainClient () okRouteReq rfl rfl

/-- C6: when a pre-request hook is configured it runs on the mutable
request before any send, and a hook failure aborts the call with the
wrapped hook error — whatever the transport would have answered (the
conclusion holds for every `send` function, so no network request can
have influenced it). -/
theorem hook_error_aborts_before_send
    (env : HttpEnv) (client : Client) (fn : Request → Except String Request)
    (e u : String) (hhook : client.beforeRequestFn = some fn) :
    (∀ (β γ : Type) (codec : Codec β γ) (input : β),
       env.parseURI (client.config.Endpoint ++ "/" ++ "/route") = .ok u →
       fn { Request.acquire with uri := some u } = .error e →
       ∀ send1, Client.Route { env with send := send1 } codec client input =
         (none, some (.wrap "failed to build request for route"
            (.wrap "error while calling BeforeRequest custom fn" (.hookErr e))))) ∧
    (∀ (β γ : Type) (codec : Codec β γ) (input : β),
       env.parseURI (client.config.Endpoint ++ "/" ++ "/route") = .ok u →
       fn { Request.acquire with uri := some u } = .error e →
       ∀ send1, Client.Isochrone { env with send := send1 } codec client input =
         (none, some (.wrap "failed to build request for route"
            (.wrap "error while calling BeforeRequest custom fn" (.hookErr e))))) ∧
    (∀ (β γ : Type) (codec : Codec β γ) (input : β),
       env.parseURI (client.config.Endpoint ++ "/" ++ "/height") = .ok u →
       fn { Request.acquire with uri := some u } = .error e →
       ∀ send1, Client.Elevation { env with send := send1 } codec client input =
         (none, some (.wrap "failed to build request for elevation"
            (.wrap "error while calling BeforeRequest custom fn" (.hookErr e))))) := by
  refine ⟨?_, ?_, ?_⟩
  · intro β γ codec input hparse hfail send1
    unfold Client.Route Client.buildBaseRequest
    dsimp only
    rw [hparse]
    dsimp only
    unfold hookStep
    rw [hhook]
    dsimp only
    rw [hfail]
  · intro β γ codec input hparse hfail send1
    unfold Client.Isochrone Client.buildBaseRequest
    dsimp only
    rw [hparse]
    dsimp only
    unfold hookStep
    rw [hhook]
    dsimp only
    rw [hfail]
  · intro β γ codec input hparse hfail send1
    unfold Client.Elevation Client.buildBaseRequest
    dsimp only
    rw [hparse]
    dsimp only
    unfold hookStep
    rw [hhook]
    dsimp only
    rw [hfail]

/-- Witness for C6: a concrete client whose hook fails with `"boom"`
never reaches the transport and surfaces the wrapped hook error. -/
theorem hook_error_aborts_before_send_witness :
    hookFailClient.Route okEnv unitCodec () =
      (none, some (.wrap "failed to build request for route"
        (.wrap "error while calling BeforeRequest custom fn" (.hookErr "boom")))) :=
  (hook_error_aborts_before_send okEnv hookFailClient (fun _ => .error "boom")
      "boom" "http://valhalla.test//route" rfl).1
    Unit Unit unitCodec () rfl rfl okEnv.send

/-- C7: the envelope's handling of the request body.  With a nil body
the envelope attaches no body (with no hook configured the built request
carries no body at all); with a non-nil body the built request's body is
exactly its JSON serialization; a serialization failure aborts the call
with the wrapped marshal error before anything is sent (the envelope
then returns the build error for every transport whatsoever). -/
theorem envelope_body_handling
    (env : HttpEnv) (marshal : β → Except String String) (client : Client)
    (method path : String) :
    (∀ req, client.beforeRequestFn = none →
       client.buildBaseRequest env marshal method path none = .ok req →
       req.body = none) ∧
    (∀ u req1, env.parseURI (client.config.Endpoint ++ "/" ++ path) = .ok u →
       hookStep client { Request.acquire with uri := some u } = .ok req1 →
       client.buildBaseRequest env marshal method path none =
         .ok (req1.setContentType "application/json")) ∧
    (∀ b bytes req, marshal b = .ok bytes →
       client.buildBaseRequest env marshal method path (some b) = .ok req →
       req.body = some bytes) ∧
    (∀ b e u req1, marshal b = .error e →
       env.parseURI (client.config.Endpoint ++ "/" ++ path) = .ok u →
       hookStep client { Request.acquire with uri := some u } = .ok req1 →
       client.buildBaseRequest env marshal method path (some b) =
         .error (.wrap "error while encoding body to json" (.marshalErr e))) ∧
    (∀ (γ : Type) (dec : String → Except String γ) (m1 m2 m3 : String)
       (body : Option β) (err : GoErr) (send1 : Request → Except String Response),
       Client.buildBaseRequest { env with send := send1 } marshal client "POST" path body
         = .error err →
       envelopeExecute { env with send := send1 }
           { marshal := marshal, decodeOutput := dec } m1 m2 m3 path client body =
         (none, some (.wrap m1 err))) := by
  refine ⟨?_, ?_, ?_, ?_, ?_⟩
  · intro req hnil hb
    unfold Client.buildBaseRequest at hb
    cases hp : env.parseURI (client.config.Endpoint ++ "/" ++ path) with
    | error e => rw [hp] at hb; exact absurd hb (by simp)
    | ok u =>
      rw [hp] at hb
      dsimp only at hb
      unfold hookStep at hb
      rw [hnil] at hb
      dsimp only [bodyStep] at hb
      simp only [Except.ok.injEq] at hb
      rw [← hb]
      rfl
  · intro u req1 hparse hhookok
    unfold Client.buildBaseRequest
    rw [hparse]
    dsimp only
    rw [hhookok]
    dsimp only [bodyStep]
  · intro b bytes req hm hb
    unfold Client.buildBaseRequest at hb
    cases hp : env.parseURI (client.config.Endpoint ++ "/" ++ path) with
    | error e => rw [hp] at hb; exact absurd hb (by simp)
    | ok u =>
      rw [hp] at hb
      dsimp only at hb
      cases hh : hookStep client { Request.acquire with uri := some u } with
      | error e => rw [hh] at hb; exact absurd hb (by simp)
      | ok req1 =>
        rw [hh] at hb
        dsimp only [bodyStep] at hb
        rw [hm] at hb
        dsimp only at hb
        simp only [Except.ok.injEq] at hb
        rw [← hb]
        rfl
  · intro b e u req1 hm hparse hhookok
    unfold Client.buildBaseRequest
    rw [hparse]
    dsimp only
    rw [hhookok]
    dsimp only [bodyStep]
    rw [hm]
  · intro γ dec m1 m2 m3 body err send1 hb
    unfold envelopeExecute
    rw [hb]

/-- Witness for C7: in the concrete fixtures a nil body yields the built
request with no body, a non-nil body yields exactly its serialization
`"{}"`, and the failing marshaller aborts the build with the wrapped
marshal error. -/
theorem envelope_body_handling_witness :
    ({ okRouteReq with body := none } : Request).body = none ∧
    okRouteReq.body = some "{}" ∧
    plainClient.buildBaseRequest okEnv badBodyCodec.marshal "POST" "/route" (some ()) =
      .error (.wrap "error while encoding body to json"
        (.marshalErr "unsupported type")) := by
  refine ⟨?_, ?_, ?_⟩
  · exact (envelope_body_handling okEnv unitCodec.marshal plainClient "POST" "/route").1
      { okRouteReq with body := none } rfl rfl
  · exact (envelope_body_handling okEnv unitCodec.marshal plainClient "POST" "/route").2.2.1
      () "{}" okRouteReq rfl rfl
  · exact (envelope_body_handling okEnv badBodyCodec.marshal plainClient "POST" "/route").2.2.2.1
      () "unsupported type" "http://valhalla.test//route"
      { Request.acquire with uri := some "http://valhalla.test//route" } rfl rfl rfl

/-- C9: when the transport-level send fails, each endpoint aborts with
the wrapped transport error — for every error-body unmarshaller and
every output decoder (so no decoding of any response body is ever
consulted) — and that error is a transport error, never a structured
service error and never a decode error. -/
theorem transport_failure_is_transport_error (env : HttpEnv) (client : Client) :
    (∀ (β γ : Type) (codec : Codec β γ) (input : β) (req : Request) (e : String),
       client.buildBaseRequest env codec.marshal "POST" "/route" (some input) = .ok req →
       env.send req = .error e →
       (∀ (ue : String → ErrorResponse × Option String)
          (dout : String → Except String γ), Client.Route { env with unmarshalErrResp := ue }
           { codec with decodeOutput := dout } client input =
           (none, some (.wrap "error while calling http route service" (.transportErr e)))) ∧
       (GoErr.wrap "error while calling http route service" (.transportErr e)).isTransportErr
         = true ∧
       (GoErr.wrap "error while calling http route service" (.transportErr e)).isServiceErr
         = false ∧
       (GoErr.wrap "error while calling http route service" (.transportErr e)).isDecodeErr
         = false) ∧
    (∀ (β γ : Type) (codec : Codec β γ) (input : β) (req : Request) (e : String),
       client.buildBaseRequest env codec.marshal "POST" "/route" (some input) = .ok req →
       env.send req = .error e →
       (∀ (ue : String → ErrorResponse × Option String)
          (dout : String → Except String γ), Client.Isochrone { env with unmarshalErrResp := ue }
           { codec with decodeOutput := dout } client input =
           (none, some (.wrap "error while calling http route service" (.transportErr e)))) ∧
       (GoErr.wrap "error while calling http route service" (.transportErr e)).isTransportErr
         = true ∧
       (GoErr.wrap "error while calling http route service" (.transportErr e)).isServiceErr
         = false ∧
       (GoErr.wrap "error while calling http route service" (.transportErr e)).isDecodeErr
         = false) ∧
    (∀ (β γ : Type) (codec : Codec β γ) (input : β) (req : Request) (e : String),
       client.buildBaseRequest env codec.marshal "POST" "/height" (some input) = .ok req →
       env.send req = .error e →
       (∀ (ue : String → ErrorResponse × Option String)
          (dout : String → Except String γ), Client.Elevation { env with unmarshalErrResp := ue }
           { codec with decodeOutput := dout } client input =
           (none, some (.wrap "error while calling http elevation service" (.transportErr e)))) ∧
       (GoErr.wrap "error while calling http elevation service" (.transportErr e)).isTransportErr
         = true ∧
       (GoErr.wrap "error while calling http elevation service" (.transportErr e)).isServiceErr
         = false ∧
       (GoErr.wrap "error while calling http elevation service" (.transportErr e)).isDecodeErr
         = false) := by
  refine ⟨?_, ?_, ?_⟩
  · intro β γ codec input req e hb hs
    refine ⟨?_, rfl, rfl, rfl⟩
    intro ue dout
    have hb1 : Client.buildBaseRequest { env with unmarshalErrResp := ue }
        (Codec.marshal { codec with decodeOutput := dout }) client "POST" "/route"
        (some input) = .ok req := hb
    have hs1 : HttpEnv.send { env with unmarshalErrResp := ue } req = .error e := hs
    unfold Client.Route
    rw [hb1]
    dsimp only
    rw [hs1]
  · intro β γ codec input req e hb hs
    refine ⟨?_, rfl, rfl, rfl⟩
    intro ue dout
    have hb1 : Client.buildBaseRequest { env with unmarshalErrResp := ue }
        (Codec.marshal { codec with decodeOutput := dout }) client "POST" "/route"
        (some input) = .ok req := hb
    have hs1 : HttpEnv.send { env with unmarshalErrResp := ue } req = .error e := hs
    unfold Client.Isochrone
    rw [hb1]
    dsimp only
    rw [hs1]
  · intro β γ codec input req e hb hs
    refine ⟨?_, rfl, rfl, rfl⟩
    intro ue dout
    have hb1 : Client.buildBaseRequest { env with unmarshalErrResp := ue }
        (Codec.marshal { codec with decodeOutput := dout }) client "POST" "/height"
        (some input) = .ok req := hb
    have hs1 : HttpEnv.send { env with unmarshalErrResp := ue } req = .error e := hs
    unfold Client.Elevation
    rw [hb1]
    dsimp only
    rw [hs1]

/-- Witness for C9: against a transport that fails with
`"connection refused"`, `Route` surfaces exactly the wrapped transport
error. -/
theorem transport_failure_is_transport_error_witness :
    plainClient.Route envDown unitCodec () =
      (none, some (.wrap "error while calling http route service"
        (.transportErr "connection refused"))) :=
  ((transport_failure_is_transport_error envDown plainClient).1
      Unit Unit unitCodec () okRouteReq "connection refused" rfl rfl).1
    envDown.unmarshalErrResp unitCodec.decodeOutput

/-- Counterexample to C4 as stated: `radiusZeroLocation` has its
`Radius` field explicitly set to `0`, yet its marshalled JSON does not
contain the key `radius` at all — in particular not with value `0`. -/
theorem radius_explicit_zero_not_serialized :
    findField "radius" (RouteLocation.marshalFields radiusZeroLocation) = none ∧
    findField "radius" (RouteLocation.marshalFields radiusZeroLocation) ≠
      some (Jval.num 0) := by
  have h0 : findField "radius" (RouteLocation.marshalFields radiusZeroLocation) = none := rfl
  refine ⟨h0, ?_⟩
  rw [h0]
  intro h
  exact Option.noConfusion h

/-- C3 (code-bug evidence): the `method` argument of `buildBaseRequest`
is never applied to the request — two calls differing only in the method
argument build identical requests, and the concrete request built for
`"POST"` carries fasthttp's default method `"GET"` (its content-type,
however, is indeed `application/json`). -/
theorem buildBaseRequest_ignores_method :
    (∀ (β : Type) (env : HttpEnv) (marshal : β → Except String String)
       (client : Client) (m1 m2 path : String) (body : Option β),
       client.buildBaseRequest env marshal m1 path body =
         client.buildBaseRequest env marshal m2 path body) ∧
    plainClient.buildBaseRequest okEnv unitCodec.marshal "POST" "/route" (some ())
      = .ok okRouteReq ∧
    okRouteReq.method = "GET" ∧
    okRouteReq.method ≠ "POST" ∧
    okRouteReq.getHeader "Content-Type" = some "application/json" := by
  refine ⟨fun β env marshal client m1 m2 path body => rfl, rfl, rfl, by decide, rfl⟩

/-- C5 (code-bug evidence): `ClientConfig.CustomHeaders` is never read
by `buildBaseRequest` — two clients differing only in their custom
headers build identical requests, and the request built for a client
carrying the custom header `X-Api-Key` does not contain that header. -/
theorem customHeaders_never_applied :
    (∀ (β : Type) (env : HttpEnv) (marshal : β → Except String String)
       (hs1 hs2 : List (String × String)) (endp : String)
       (hook : Option (Request → Except String Request))
       (m path : String) (body : Option β),
       Client.buildBaseRequest env marshal
         { config := { CustomHeaders := hs1, Endpoint := endp },
           beforeRequestFn := hook } m path body =
       Client.buildBaseRequest env marshal
         { config := { CustomHeaders := hs2, Endpoint := endp },
           beforeRequestFn := hook } m path body) ∧
    Client.buildBaseRequest okEnv unitCodec.marshal
      { config := { CustomHeaders := [("X-Api-Key", "secret")],
                    Endpoint := "http://valhalla.test" },
        beforeRequestFn := none } "POST" "/route" (some ()) = .ok okRouteReq ∧
    okRouteReq.headers = [("Content-Type", "application/json")] ∧
    okRouteReq.getHeader "X-Api-Key" = none := by
  exact ⟨fun β env marshal hs1 hs2 endp hook m path body => rfl, rfl, rfl, rfl⟩

/-- Setting a header and reading it back yields the value just set
(the old binding of the key, if any, was filtered out). -/
theorem getHeader_setHeader (r : Request) (k v : String) :
    (r.setHeader k v).getHeader k = some v := by
  have key : ∀ (l : List (String × String)),
      (l.filter (fun p => p.1 ≠ k) ++ [(k, v)]).find? (fun p => p.1 = k)
        = some (k, v) := by
    intro l
    induction l with
    | nil => simp [List.find?]
    | cons a t ih =>
      by_cases ha : a.1 = k
      · simp [List.filter_cons, ha, ih]
      · simp [List.filter_cons, ha, List.find?, ih]
  simp [Request.setHeader, Request.getHeader, key r.headers]

/-- C10: every request successfully built by `buildBaseRequest` carries
content-type `application/json` — the content-type is set after the hook
ran, so whatever content-type the hook set is overwritten. -/
theorem contentType_json_after_hook
    (env : HttpEnv) (marshal : β → Except String String) (client : Client)
    (method path : String) (body : Option β) (req : Request)
    (h : client.buildBaseRequest env marshal method path body = .ok req) :
    req.getHeader "Content-Type" = some "application/json" := by
  unfold Client.buildBaseRequest at h
  cases hp : env.parseURI (client.config.Endpoint ++ "/" ++ path) with
  | error e => rw [hp] at h; exact absurd h (by simp)
  | ok u =>
    rw [hp] at h
    dsimp only at h
    cases hh : hookStep client { Request.acquire with uri := some u } with
    | error e => rw [hh] at h; exact absurd h (by simp)
    | ok r1 =>
      rw [hh] at h
      dsimp only at h
      cases hb : bodyStep marshal body r1 with
      | error e => rw [hb] at h; exact absurd h (by simp)
      | ok r2 =>
        rw [hb] at h
        dsimp only at h
        simp only [Except.ok.injEq] at h
        rw [← h]
        exact getHeader_setHeader r2 "Content-Type" "application/json"

/-- A client whose hook sets the content-type to `text/plain`; the
envelope overwrites it with `application/json` afterwards. -/
def hookCTClient : Client :=
  { plainClient with
      beforeRequestFn := some (fun r => .ok (r.setContentType "text/plain")) }

/-- Witness for C10: even under a hook that sets content-type
`text/plain`, the built request's content-type is `application/json`. -/
theorem contentType_json_after_hook_witness :
    okRouteReq.getHeader "Content-Type" = some "application/json" :=
  contentType_json_after_hook okEnv unitCodec.marshal hookCTClient
    "POST" "/route" (some ()) okRouteReq rfl

end Valhalla
